import Mathlib

/-!
Verification of the segment-display mapping core (mpf/core/segment_mappings.py).

The Python module defines, per display family, a value type for one cell's
lit-segment pattern (a decimal-point flag, named segment-bit flags and a
diagnostic character), character tables keyed by integer character code with a
None-keyed fallback entry, hardware byte-order encoders, and the
TextToSegmentMapper algorithm that turns text into a fixed-width,
right-aligned sequence of such values.

The embedding below translates these definitions directly.  Segment flags are
Bool (the Python code stores the integers 0/1 and tests them for truthiness);
machine bytes are Nat values below 256 assembled with shifts and bitwise or,
exactly as the source does; Python dicts become association lists together
with the designated fallback.  The one Python subtlety that is modelled
explicitly is the list slice `segments[-display_width:]`: for a positive
width it keeps the trailing `display_width` elements, but for width 0 the
index -0 is 0 and the slice is the whole list (see `py_neg_slice`).
-/

namespace SegmentMappings

/-- Numeric value of a segment flag, as the Python code stores it (0 or 1). -/
def bit (b : Bool) : Nat := b.toNat

/-- A per-family character map: the integer-keyed entries of the Python dict
together with the entry stored under the `None` key, which serves as the
fallback for unmapped codes. -/
structure CharacterMap (α : Type) where
  entries : List (Nat × α)
  fallback : α

/-- Lookup with fallback default, modelling the expression
`segment_mapping.get(code, segment_mapping[None])` used by all mapper entry
points.  Total by construction: it never fails. -/
def CharacterMap.lookup {α} (m : CharacterMap α) (code : Nat) : α :=
  match m.entries.find? (fun p => p.fst == code) with
  | some p => p.snd
  | none => m.fallback

/-- Mapping for seven segments (class `SevenSegments`), field order as in the
Python constructor `__init__(self, dp, g, f, e, d, c, b, a, char)`. -/
structure SevenSegments where
  dp : Bool
  g : Bool
  f : Bool
  e : Bool
  d : Bool
  c : Bool
  b : Bool
  a : Bool
  char : Char
deriving DecidableEq

/-- Builds a `SevenSegments` from the 0/1 integers written in the source
table, e.g. `SevenSegments(dp=0, g=0, f=1, ..., char="0")`. -/
def mkSeven (dp g f e d c b a : Nat) (char : Char) : SevenSegments :=
  ⟨dp == 1, g == 1, f == 1, e == 1, d == 1, c == 1, b == 1, a == 1, char⟩

/-- Encoder `get_gfedcba_encoding`: one byte in g-f-e-d-c-b-a order. -/
def SevenSegments.get_gfedcba_encoding (s : SevenSegments) : List Nat :=
  [(bit s.g <<< 6) ||| (bit s.f <<< 5) ||| (bit s.e <<< 4) ||| (bit s.d <<< 3) |||
   (bit s.c <<< 2) ||| (bit s.b <<< 1) ||| bit s.a]

/-- Encoder `get_dpgfedcba_encoding`: one byte in dp-g-f-e-d-c-b-a order. -/
def SevenSegments.get_dpgfedcba_encoding (s : SevenSegments) : List Nat :=
  [(bit s.dp <<< 7) ||| (bit s.g <<< 6) ||| (bit s.f <<< 5) ||| (bit s.e <<< 4) |||
   (bit s.d <<< 3) ||| (bit s.c <<< 2) ||| (bit s.b <<< 1) ||| bit s.a]

/-- Encoder `get_dpgfeabcd_encoding`: one byte in dp-g-f-e-a-b-c-d order. -/
def SevenSegments.get_dpgfeabcd_encoding (s : SevenSegments) : List Nat :=
  [(bit s.dp <<< 7) ||| (bit s.g <<< 6) ||| (bit s.f <<< 5) ||| (bit s.e <<< 4) |||
   (bit s.a <<< 3) ||| (bit s.b <<< 2) ||| (bit s.c <<< 1) ||| bit s.d]

/-- The method `copy_with_dp_on` of the `Segment` base class, specialised to
seven segments: a copy of the value with `dp` set, all other fields kept. -/
def SevenSegments.copy_with_dp_on (s : SevenSegments) : SevenSegments :=
  { s with dp := true }

/-- The reflective `Segment.__eq__` specialised to seven segments: it compares
the dictionary of all public non-callable attributes, i.e. every field
including the diagnostic `char` label. -/
def SevenSegments.seg_eq (s o : SevenSegments) : Bool :=
  s.dp == o.dp && s.g == o.g && s.f == o.f && s.e == o.e && s.d == o.d &&
  s.c == o.c && s.b == o.b && s.a == o.a && s.char == o.char

/-- Mapping for fourteen segments (class `FourteenSegments`), field order as
in the Python constructor. -/
structure FourteenSegments where
  dp : Bool
  l : Bool
  m : Bool
  n : Bool
  k : Bool
  j : Bool
  h : Bool
  g2 : Bool
  g1 : Bool
  f : Bool
  e : Bool
  d : Bool
  c : Bool
  b : Bool
  a : Bool
  char : Char
deriving DecidableEq

/-- Encoder `get_pinmame_encoding`: two bytes, byte 0 = g1-f-e-d-c-b-a,
byte 1 = dp-l-m-n-g2-k-j-h. -/
def FourteenSegments.get_pinmame_encoding (s : FourteenSegments) : List Nat :=
  [(bit s.g1 <<< 6) ||| (bit s.f <<< 5) ||| (bit s.e <<< 4) ||| (bit s.d <<< 3) |||
   (bit s.c <<< 2) ||| (bit s.b <<< 1) ||| bit s.a,
   (bit s.dp <<< 7) ||| (bit s.l <<< 6) ||| (bit s.m <<< 5) ||| (bit s.n <<< 4) |||
   (bit s.g2 <<< 3) ||| (bit s.k <<< 2) ||| (bit s.j <<< 1) ||| bit s.h]

/-- Encoder `get_apc_encoding`: two bytes, byte 0 = dp-g1-f-e-a-b-c-d,
byte 1 = l-dp-n-m-k-g2-h-j (the dp flag is packed into both bytes). -/
def FourteenSegments.get_apc_encoding (s : FourteenSegments) : List Nat :=
  [(bit s.dp <<< 7) ||| (bit s.g1 <<< 6) ||| (bit s.f <<< 5) ||| (bit s.e <<< 4) |||
   (bit s.a <<< 3) ||| (bit s.b <<< 2) ||| (bit s.c <<< 1) ||| bit s.d,
   (bit s.l <<< 7) ||| (bit s.dp <<< 6) ||| (bit s.n <<< 5) ||| (bit s.m <<< 4) |||
   (bit s.k <<< 3) ||| (bit s.g2 <<< 2) ||| (bit s.h <<< 1) ||| bit s.j]

/-- Encoder `get_vpe_encoding`: two bytes packed least-significant-bit first,
byte 0 = a,b,c,d,e,f,g1,h and byte 1 = j,k,g2,n,m,l,dp. -/
def FourteenSegments.get_vpe_encoding (s : FourteenSegments) : List Nat :=
  [bit s.a ||| (bit s.b <<< 1) ||| (bit s.c <<< 2) ||| (bit s.d <<< 3) |||
   (bit s.e <<< 4) ||| (bit s.f <<< 5) ||| (bit s.g1 <<< 6) ||| (bit s.h <<< 7),
   bit s.j ||| (bit s.k <<< 1) ||| (bit s.g2 <<< 2) ||| (bit s.n <<< 3) |||
   (bit s.m <<< 4) ||| (bit s.l <<< 5) ||| (bit s.dp <<< 6)]

/-- The method `copy_with_dp_on` specialised to fourteen segments. -/
def FourteenSegments.copy_with_dp_on (s : FourteenSegments) : FourteenSegments :=
  { s with dp := true }

/-- Mapping for raw ascii values (class `AsciiSegment`): the dp flag, the raw
`ascii_value` byte and the diagnostic character. -/
structure AsciiSegment where
  dp : Bool
  ascii_value : Nat
  char : Char
deriving DecidableEq

/-- Encoder `get_ascii_encoding`: the raw ascii value as one byte. -/
def AsciiSegment.get_ascii_encoding (s : AsciiSegment) : List Nat :=
  [s.ascii_value]

/-- Encoder `get_ascii_with_dp_encoding`: the ascii value with 128 added when
the dp flag is set. -/
def AsciiSegment.get_ascii_with_dp_encoding (s : AsciiSegment) : List Nat :=
  [s.ascii_value + (if s.dp then 128 else 0)]

/-- The method `copy_with_dp_on` specialised to ascii segments. -/
def AsciiSegment.copy_with_dp_on (s : AsciiSegment) : AsciiSegment :=
  { s with dp := true }

/-- Interface of the Python `Segment` base class as used by the mapper: the
truthiness of the `dp` attribute and the `copy_with_dp_on` method.  The mapper
works uniformly over every family through this interface, as the Python code
does through virtual dispatch. -/
class SegmentOps (α : Type) where
  dp : α → Bool
  copy_with_dp_on : α → α

instance : SegmentOps SevenSegments :=
  ⟨SevenSegments.dp, SevenSegments.copy_with_dp_on⟩

instance : SegmentOps FourteenSegments :=
  ⟨FourteenSegments.dp, FourteenSegments.copy_with_dp_on⟩

instance : SegmentOps AsciiSegment :=
  ⟨AsciiSegment.dp, AsciiSegment.copy_with_dp_on⟩

/-- Modelled from the spec: class RGBColor from mpf.core.rgb_color is not
under src; the core only passes colors through unchanged and pads with the
named color white, so only a concrete color record is needed. -/
structure RGBColor where
  red : Nat
  green : Nat
  blue : Nat
deriving DecidableEq

/-- Modelled from the spec: the entry NAMED_RGB_COLORS["white"] of the named
color table from mpf.core.rgb_color, used for padding entries of the colored
mapper. -/
def NAMED_RGB_COLORS_white : RGBColor := ⟨255, 255, 255⟩

/-- Modelled from the spec: one element of a SegmentDisplayText (class from
mpf.devices.segment_display.segment_display_text, not under src) — a Cell
carrying a character code, a dot flag and a color. -/
structure DisplayChar where
  char_code : Nat
  dot : Bool
  color : RGBColor
deriving DecidableEq

/-- The character-scanning loop of `map_text_to_segments` (lines 75-91): for
each character look up its value; when `embed_dots` is enabled and the value's
dot flag is inactive, peek at the next character and, if it is a literal
period, consume it and emit the value with the dot turned on.  Past the end of
the text the Python code substitutes a space for the peeked character, which
never merges. -/
def map_text_loop {α} [SegmentOps α] (m : CharacterMap α) (embed_dots : Bool) :
    List Char → List α
  | [] => []
  | ch :: rest =>
    let mapping := m.lookup ch.toNat
    if embed_dots && !(SegmentOps.dp mapping) then
      match rest with
      | next :: rest2 =>
        if next == '.' then
          SegmentOps.copy_with_dp_on mapping :: map_text_loop m embed_dots rest2
        else
          mapping :: map_text_loop m embed_dots (next :: rest2)
      | [] => [mapping]
    else
      mapping :: map_text_loop m embed_dots rest

/-- The Python slice `segments[-w:]` for a nonnegative w.  For w positive it
keeps the trailing w elements (all of them when w exceeds the length); for
w = 0 the index -0 is just 0, so the slice is the whole list, not the empty
list. -/
def py_neg_slice {α} (w : Nat) (xs : List α) : List α :=
  if w = 0 then xs else xs.drop (xs.length - w)

/-- The width-normalization tail shared verbatim by the three mapper entry
points: truncate with `segments[-display_width:]` when the result is longer
than the display, then prepend padding elements one by one while it is
shorter (the while loop is written in closed form as a replicate). -/
def normalize_width {α} (display_width : Nat) (pad_elem : α) (segments : List α) :
    List α :=
  let truncated :=
    if display_width < segments.length then py_neg_slice display_width segments
    else segments
  List.replicate (display_width - truncated.length) pad_elem ++ truncated

/-- Per-cell mapping of `map_segment_text_to_segments` (lines 30-35): look up
the cell's character code and turn the dot on when the cell requests it. -/
def map_cell {α} [SegmentOps α] (m : CharacterMap α) (ch : DisplayChar) : α :=
  let mapping := m.lookup ch.char_code
  if ch.dot then SegmentOps.copy_with_dp_on mapping else mapping

/-- Entry point `map_segment_text_to_segments`: per-cell mapping followed by
width normalization; padding uses `segment_mapping.get(ord(" "), fallback)`. -/
def map_segment_text_to_segments {α} [SegmentOps α] (text : List DisplayChar)
    (display_width : Nat) (m : CharacterMap α) : List α :=
  normalize_width display_width (m.lookup 32) (text.map (map_cell m))

/-- Entry point `map_segment_text_to_segments_with_color`: the same per-cell
mapping paired with each cell's color; padding entries are the space lookup
paired with the named color white. -/
def map_segment_text_to_segments_with_color {α} [SegmentOps α]
    (text : List DisplayChar) (display_width : Nat) (m : CharacterMap α) :
    List (α × RGBColor) :=
  normalize_width display_width (m.lookup 32, NAMED_RGB_COLORS_white)
    (text.map (fun ch => (map_cell m ch, ch.color)))

/-- Entry point `map_text_to_segments`: the character-scanning loop followed
by width normalization. -/
def map_text_to_segments {α} [SegmentOps α] (text : List Char)
    (display_width : Nat) (m : CharacterMap α) (embed_dots : Bool) : List α :=
  normalize_width display_width (m.lookup 32) (map_text_loop m embed_dots text)

/-- The SEVEN_SEGMENTS table, transcribed entry for entry from the source;
the `None`-keyed entry is the fallback. -/
def SEVEN_SEGMENTS : CharacterMap SevenSegments where
  fallback := mkSeven 0 0 0 0 0 0 0 0 '?'
  entries := [
    (32, mkSeven 0 0 0 0 0 0 0 0 ' '),
    (33, mkSeven 1 0 0 0 0 1 1 0 '!'),
    (34, mkSeven 0 0 1 0 0 0 1 0 (Char.ofNat 34)),
    (35, mkSeven 0 1 1 1 1 1 1 0 '#'),
    (36, mkSeven 0 1 1 0 1 1 0 1 '$'),
    (37, mkSeven 1 1 0 1 0 0 1 0 '%'),
    (38, mkSeven 0 1 0 0 0 1 1 0 '&'),
    (39, mkSeven 0 0 1 0 0 0 0 0 (Char.ofNat 39)),
    (40, mkSeven 0 0 1 0 1 0 0 1 '('),
    (41, mkSeven 0 0 0 0 1 0 1 1 ')'),
    (42, mkSeven 0 0 1 0 0 0 0 1 '*'),
    (43, mkSeven 0 1 1 1 0 0 0 0 '+'),
    (44, mkSeven 0 0 0 1 0 0 0 0 ','),
    (45, mkSeven 0 1 0 0 0 0 0 0 '-'),
    (46, mkSeven 1 0 0 0 0 0 0 0 '.'),
    (47, mkSeven 0 1 0 1 0 0 1 0 '/'),
    (48, mkSeven 0 0 1 1 1 1 1 1 '0'),
    (49, mkSeven 0 0 0 0 0 1 1 0 '1'),
    (50, mkSeven 0 1 0 1 1 0 1 1 '2'),
    (51, mkSeven 0 1 0 0 1 1 1 1 '3'),
    (52, mkSeven 0 1 1 0 0 1 1 0 '4'),
    (53, mkSeven 0 1 1 0 1 1 0 1 '5'),
    (54, mkSeven 0 1 1 1 1 1 0 1 '6'),
    (55, mkSeven 0 0 0 0 0 1 1 1 '7'),
    (56, mkSeven 0 1 1 1 1 1 1 1 '8'),
    (57, mkSeven 0 1 1 0 1 1 1 1 '9'),
    (58, mkSeven 0 0 0 0 1 0 0 1 ':'),
    (59, mkSeven 0 0 0 0 1 1 0 1 ';'),
    (60, mkSeven 0 1 1 0 0 0 0 1 '<'),
    (61, mkSeven 0 1 0 0 1 0 0 0 '='),
    (62, mkSeven 0 1 0 0 0 0 1 1 '>'),
    (63, mkSeven 1 1 0 1 0 0 1 1 '?'),
    (64, mkSeven 0 1 0 1 1 1 1 1 '@'),
    (65, mkSeven 0 1 1 1 0 1 1 1 'A'),
    (66, mkSeven 0 1 1 1 1 1 0 0 'B'),
    (67, mkSeven 0 0 1 1 1 0 0 1 'C'),
    (68, mkSeven 0 1 0 1 1 1 1 0 'D'),
    (69, mkSeven 0 1 1 1 1 0 0 1 'E'),
    (70, mkSeven 0 1 1 1 0 0 0 1 'F'),
    (71, mkSeven 0 0 1 1 1 1 0 1 'G'),
    (72, mkSeven 0 1 1 1 0 1 1 0 'H'),
    (73, mkSeven 0 0 1 1 0 0 0 0 'I'),
    (74, mkSeven 0 0 0 1 1 1 1 0 'J'),
    (75, mkSeven 0 1 1 1 0 1 0 1 'K'),
    (76, mkSeven 0 0 1 1 1 0 0 0 'L'),
    (77, mkSeven 0 0 0 1 0 1 0 1 'M'),
    (78, mkSeven 0 0 1 1 0 1 1 1 'N'),
    (79, mkSeven 0 0 1 1 1 1 1 1 'O'),
    (80, mkSeven 0 1 1 1 0 0 1 1 'P'),
    (81, mkSeven 0 1 1 0 1 0 1 1 'Q'),
    (82, mkSeven 0 0 1 1 0 0 1 1 'R'),
    (83, mkSeven 0 1 1 0 1 1 0 1 'S'),
    (84, mkSeven 0 1 1 1 1 0 0 0 'T'),
    (85, mkSeven 0 0 1 1 1 1 1 0 'U'),
    (86, mkSeven 0 0 1 1 1 1 1 0 'V'),
    (87, mkSeven 0 0 1 0 1 0 1 0 'W'),
    (88, mkSeven 0 1 1 1 0 1 1 0 'X'),
    (89, mkSeven 0 1 1 0 1 1 1 0 'Y'),
    (90, mkSeven 0 1 0 1 1 0 1 1 'Z'),
    (91, mkSeven 0 0 1 1 1 0 0 1 '['),
    (92, mkSeven 0 1 1 0 0 1 0 0 (Char.ofNat 34)),
    (93, mkSeven 0 0 0 0 1 1 1 1 ']'),
    (94, mkSeven 0 0 1 0 0 0 1 1 '^'),
    (95, mkSeven 0 0 0 0 1 0 0 0 '_'),
    (96, mkSeven 0 0 0 0 0 0 1 0 (Char.ofNat 96)),
    (97, mkSeven 0 1 0 1 1 1 1 1 'a'),
    (98, mkSeven 0 1 1 1 1 1 0 0 'b'),
    (99, mkSeven 0 1 0 1 1 0 0 0 'c'),
    (100, mkSeven 0 1 0 1 1 1 1 0 'd'),
    (101, mkSeven 0 1 1 1 1 0 1 1 'e'),
    (102, mkSeven 0 1 1 1 0 0 0 1 'f'),
    (103, mkSeven 0 1 1 0 1 1 1 1 'g'),
    (104, mkSeven 0 1 1 1 0 1 0 0 'h'),
    (105, mkSeven 0 0 0 1 0 0 0 0 'i'),
    (106, mkSeven 0 0 0 0 1 1 0 0 'j'),
    (107, mkSeven 0 1 1 1 0 1 0 1 'k'),
    (108, mkSeven 0 0 1 1 0 0 0 0 'l'),
    (109, mkSeven 0 0 0 1 0 1 0 0 'm'),
    (110, mkSeven 0 1 0 1 0 1 0 0 'n'),
    (111, mkSeven 0 1 0 1 1 1 0 0 'o'),
    (112, mkSeven 0 1 1 1 0 0 1 1 'p'),
    (113, mkSeven 0 1 1 0 0 1 1 1 'q'),
    (114, mkSeven 0 1 0 1 0 0 0 0 'r'),
    (115, mkSeven 0 1 1 0 1 1 0 1 's'),
    (116, mkSeven 0 1 1 1 1 0 0 0 't'),
    (117, mkSeven 0 0 0 1 1 1 0 0 'u'),
    (118, mkSeven 0 0 0 1 1 1 0 0 'v'),
    (119, mkSeven 0 0 0 1 0 1 0 0 'w'),
    (120, mkSeven 0 1 1 1 0 1 1 0 'x'),
    (121, mkSeven 0 1 1 0 1 1 1 0 'y'),
    (122, mkSeven 0 1 0 1 1 0 1 1 'z'),
    (123, mkSeven 0 1 0 0 0 1 1 0 (Char.ofNat 123)),
    (124, mkSeven 0 0 1 1 0 0 0 0 '|'),
    (125, mkSeven 0 1 1 1 0 0 0 0 (Char.ofNat 125)),
    (126, mkSeven 0 0 0 0 0 0 0 1 '~')]

/-- The ASCII_SEGMENTS table: built programmatically as in the source, one
entry per code 0..127 carrying the code itself as ascii value, plus the
`None`-keyed space fallback. -/
def ASCII_SEGMENTS : CharacterMap AsciiSegment where
  fallback := ⟨false, 32, ' '⟩
  entries := (List.range 128).map (fun i => (i, ⟨false, i, Char.ofNat i⟩))

/-!
Helper lemmas shared by the claim theorems below.
-/

/-- On an association list with pairwise distinct keys, `find?` with a key
predicate returns exactly the member carrying that key. -/
lemma find?_key_of_mem {α} (code : Nat) (v : α) :
    ∀ l : List (Nat × α), (l.map Prod.fst).Nodup → (code, v) ∈ l →
      l.find? (fun p => p.fst == code) = some (code, v) := by
  intro l
  induction l with
  | nil => intro _ h; cases h
  | cons hd tl ih =>
    intro hnd hmem
    rw [List.map_cons, List.nodup_cons] at hnd
    rcases List.mem_cons.mp hmem with heq | htl
    · rw [← heq]
      exact List.find?_cons_of_pos _ (by simp)
    · have hk : ¬ (hd.fst = code) := by
        intro hk
        exact hnd.1 (hk ▸ List.mem_map.mpr ⟨(code, v), htl, rfl⟩)
      rw [List.find?_cons_of_neg _ (by simpa using hk)]
      exact ih hnd.2 htl

/-- When no entry carries the key, `find?` with the key predicate fails. -/
lemma find?_key_of_not_mem {α} (code : Nat) (l : List (Nat × α))
    (h : code ∉ l.map Prod.fst) : l.find? (fun p => p.fst == code) = none := by
  rw [List.find?_eq_none]
  intro x hx hpx
  exact h (List.mem_map.mpr ⟨x, hx, by simpa using hpx⟩)

/-- Width normalization on a result longer than a positive width keeps
exactly the trailing `w` elements. -/
lemma normalize_width_truncates {α} (w : Nat) (p : α) (xs : List α)
    (hw : 0 < w) (h : w < xs.length) :
    normalize_width w p xs = xs.drop (xs.length - w) := by
  have hlen : (xs.drop (xs.length - w)).length = w := by
    rw [List.length_drop]; omega
  unfold normalize_width py_neg_slice
  rw [if_pos h, if_neg (by omega : ¬ w = 0)]
  simp [hlen]

/-- Width normalization on a result shorter than the width prepends padding
elements up to the width. -/
lemma normalize_width_pads {α} (w : Nat) (p : α) (xs : List α)
    (h : xs.length < w) :
    normalize_width w p xs = List.replicate (w - xs.length) p ++ xs := by
  unfold normalize_width
  rw [if_neg (by omega)]

/-- A segment flag shifted into bit position `i` contributes exactly that bit. -/
lemma bit_shift_testBit (b : Bool) (i j : Nat) :
    ((bit b) <<< i).testBit j = (b && decide (i = j)) := by
  cases b
  · simp [bit]
  · simp [bit, Nat.shiftLeft_eq, Nat.testBit_two_pow]

/-- An unshifted segment flag contributes exactly bit 0. -/
lemma bit_testBit (b : Bool) (j : Nat) :
    (bit b).testBit j = (b && decide (j = 0)) := by
  have h := bit_shift_testBit b 0 j
  rw [Nat.shiftLeft_zero] at h
  rw [h]
  cases b <;> simp [eq_comm]

/-- The numeric value of a segment flag is at most one. -/
lemma bit_le_one (b : Bool) : bit b ≤ 1 := by cases b <;> simp [bit]

/-- The parity test of a segment flag's numeric value recovers the flag. -/
lemma bit_mod_two (b : Bool) : decide (bit b % 2 = 1) = b := by
  cases b <;> simp [bit]

/-- A segment flag shifted below position `n` stays below `2 ^ n`. -/
lemma bit_shift_lt {n : Nat} (b : Bool) (i : Nat) (h : i < n) :
    (bit b) <<< i < 2 ^ n := by
  rw [Nat.shiftLeft_eq]
  calc bit b * 2 ^ i ≤ 1 * 2 ^ i := Nat.mul_le_mul_right _ (bit_le_one b)
    _ = 2 ^ i := Nat.one_mul _
    _ < 2 ^ n := Nat.pow_lt_pow_right (by omega) h

/-- Every code below 128 is mapped by the ascii table to itself. -/
lemma ascii_lookup_lt : ∀ code < 128,
    ASCII_SEGMENTS.lookup code = ⟨false, code, Char.ofNat code⟩ := by
  set_option maxRecDepth 4000 in decide

/-- Every code of 128 or above falls back to the ascii space glyph. -/
lemma ascii_lookup_ge (code : Nat) (h : 128 ≤ code) :
    ASCII_SEGMENTS.lookup code = ASCII_SEGMENTS.fallback := by
  have hnone : ASCII_SEGMENTS.entries.find? (fun p => p.fst == code) = none := by
    rw [List.find?_eq_none]
    intro x hx
    have hlt : x.fst < 128 := by
      have hx' : x ∈ (List.range 128).map
          (fun i => (i, (⟨false, i, Char.ofNat i⟩ : AsciiSegment))) := hx
      rcases List.mem_map.mp hx' with ⟨i, hi, rfl⟩
      simpa using List.mem_range.mp hi
    simp only [beq_iff_eq]
    omega
  unfold CharacterMap.lookup
  rw [hnone]

/-!
Claim theorems.
-/

/-- C1: the claim that each mapper entry point returns exactly `width`
elements, and in particular that width 0 yields an empty sequence, fails on
the code at width 0: the truncation step `segments[-display_width:]` slices
with index -0, i.e. 0, and keeps the whole list, so a one-character input at
width 0 comes back with one element from all three entry points. -/
theorem width_zero_yields_full_input :
  (map_text_to_segments ['A'] 0 SEVEN_SEGMENTS true).length = 1 ∧
  (map_segment_text_to_segments [⟨65, false, NAMED_RGB_COLORS_white⟩] 0
      SEVEN_SEGMENTS).length = 1 ∧
  (map_segment_text_to_segments_with_color [⟨65, false, NAMED_RGB_COLORS_white⟩] 0
      SEVEN_SEGMENTS).length = 1 := by
  decide

/-- C2: in the scanning loop of `map_text_to_segments` with `embed_dots`
enabled, a looked-up value with inactive dot flag merges a following literal
period (the cursor advances past both characters and the value is emitted
with the dot turned on); with no following period, or at the end of the text,
the value is emitted unchanged and the cursor advances one position; a value
whose dot flag is already on never merges, and a following period is
processed as its own character on the next iteration. -/
theorem embed_dots_step {α} [SegmentOps α] (m : CharacterMap α) (c : Char)
    (rest : List Char) :
  (SegmentOps.dp (m.lookup c.toNat) = false →
    map_text_loop m true (c :: '.' :: rest)
      = SegmentOps.copy_with_dp_on (m.lookup c.toNat) :: map_text_loop m true rest) ∧
  (∀ next rest2, SegmentOps.dp (m.lookup c.toNat) = false → next ≠ '.' →
    map_text_loop m true (c :: next :: rest2)
      = m.lookup c.toNat :: map_text_loop m true (next :: rest2)) ∧
  (SegmentOps.dp (m.lookup c.toNat) = false →
    map_text_loop m true [c] = [m.lookup c.toNat]) ∧
  (SegmentOps.dp (m.lookup c.toNat) = true →
    map_text_loop m true (c :: '.' :: rest)
      = m.lookup c.toNat :: map_text_loop m true ('.' :: rest)) := by
  refine ⟨?_, ?_, ?_, ?_⟩
  · intro h; simp [map_text_loop, h]
  · intro next rest2 h hne; simp [map_text_loop, h, hne]
  · intro h; simp [map_text_loop, h]
  · intro h; simp [map_text_loop, h]

/-- Witness for C2, on the seven-segment table: merging for "1.", no merge
for "12" and for a final "1", and no merge after '!' whose table entry
already carries the dot. -/
theorem embed_dots_step_witness :
  (map_text_loop SEVEN_SEGMENTS true ['1', '.']
     = SegmentOps.copy_with_dp_on (SEVEN_SEGMENTS.lookup ('1'.toNat))
         :: map_text_loop SEVEN_SEGMENTS true []) ∧
  (map_text_loop SEVEN_SEGMENTS true ['1', '2']
     = SEVEN_SEGMENTS.lookup ('1'.toNat)
         :: map_text_loop SEVEN_SEGMENTS true ['2']) ∧
  (map_text_loop SEVEN_SEGMENTS true ['1'] = [SEVEN_SEGMENTS.lookup ('1'.toNat)]) ∧
  (map_text_loop SEVEN_SEGMENTS true ['!', '.']
     = SEVEN_SEGMENTS.lookup ('!'.toNat)
         :: map_text_loop SEVEN_SEGMENTS true ['.']) :=
  ⟨(embed_dots_step SEVEN_SEGMENTS '1' []).1 (by decide),
   (embed_dots_step SEVEN_SEGMENTS '1' []).2.1 '2' [] (by decide) (by decide),
   (embed_dots_step SEVEN_SEGMENTS '1' []).2.2.1 (by decide),
   (embed_dots_step SEVEN_SEGMENTS '!' []).2.2.2 (by decide)⟩

/-- C3: byte-exactness oracle — the seven-segment entry for '0' (code 48)
encodes to the single byte 0b0111111 in g-f-e-d-c-b-a order, and the entry
for '!' (code 33, dp=1, c=1, b=1, all else 0) encodes in dp-g-f-e-d-c-b-a
order to the byte with bit 7 and bits 2 and 1 set and all other bits clear. -/
theorem seven_encoding_oracle :
  (SEVEN_SEGMENTS.lookup 48).get_gfedcba_encoding = [0b00111111] ∧
  (SEVEN_SEGMENTS.lookup 33).get_dpgfedcba_encoding = [0b10000110] := by
  decide

/-- C4: `lookup` is total (it is a Lean function, so it never fails) and
returns the entry stored under the code when the code is a key of the table
(the keys of a Python dict are distinct, hence the Nodup hypothesis), and the
designated fallback entry for any code that is not a key. -/
theorem lookup_total_with_fallback {α} (m : CharacterMap α) (code : Nat) :
  (∀ v, (m.entries.map Prod.fst).Nodup → (code, v) ∈ m.entries →
     m.lookup code = v) ∧
  (code ∉ m.entries.map Prod.fst → m.lookup code = m.fallback) := by
  constructor
  · intro v hnd hmem
    unfold CharacterMap.lookup
    rw [find?_key_of_mem code v m.entries hnd hmem]
  · intro h
    unfold CharacterMap.lookup
    rw [find?_key_of_not_mem code m.entries h]

/-- Witness for C4 on the seven-segment table: a mapped code returns its
entry and an unmapped code returns the fallback. -/
theorem lookup_total_with_fallback_witness :
  SEVEN_SEGMENTS.lookup 48 = mkSeven 0 0 1 1 1 1 1 1 '0' ∧
  SEVEN_SEGMENTS.lookup 999 = SEVEN_SEGMENTS.fallback :=
  ⟨(lookup_total_with_fallback SEVEN_SEGMENTS 48).1 _ (by decide) (by decide),
   (lookup_total_with_fallback SEVEN_SEGMENTS 999).2 (by decide)⟩

/-- C5: for every segment value of the embedded families, `copy_with_dp_on`
returns a value whose dot flag is true and whose every other field equals the
corresponding field of the input (the input itself is untouched: the
operation is a pure function), and the operation is idempotent. -/
theorem copy_with_dp_on_correct :
  (∀ v : SevenSegments, v.copy_with_dp_on.dp = true ∧
    v.copy_with_dp_on.g = v.g ∧ v.copy_with_dp_on.f = v.f ∧
    v.copy_with_dp_on.e = v.e ∧ v.copy_with_dp_on.d = v.d ∧
    v.copy_with_dp_on.c = v.c ∧ v.copy_with_dp_on.b = v.b ∧
    v.copy_with_dp_on.a = v.a ∧ v.copy_with_dp_on.char = v.char ∧
    v.copy_with_dp_on.copy_with_dp_on = v.copy_with_dp_on) ∧
  (∀ v : FourteenSegments, v.copy_with_dp_on.dp = true ∧
    v.copy_with_dp_on.l = v.l ∧ v.copy_with_dp_on.m = v.m ∧
    v.copy_with_dp_on.n = v.n ∧ v.copy_with_dp_on.k = v.k ∧
    v.copy_with_dp_on.j = v.j ∧ v.copy_with_dp_on.h = v.h ∧
    v.copy_with_dp_on.g2 = v.g2 ∧ v.copy_with_dp_on.g1 = v.g1 ∧
    v.copy_with_dp_on.f = v.f ∧ v.copy_with_dp_on.e = v.e ∧
    v.copy_with_dp_on.d = v.d ∧ v.copy_with_dp_on.c = v.c ∧
    v.copy_with_dp_on.b = v.b ∧ v.copy_with_dp_on.a = v.a ∧
    v.copy_with_dp_on.char = v.char ∧
    v.copy_with_dp_on.copy_with_dp_on = v.copy_with_dp_on) ∧
  (∀ v : AsciiSegment, v.copy_with_dp_on.dp = true ∧
    v.copy_with_dp_on.ascii_value = v.ascii_value ∧
    v.copy_with_dp_on.char = v.char ∧
    v.copy_with_dp_on.copy_with_dp_on = v.copy_with_dp_on) := by
  refine ⟨fun v => ?_, fun v => ?_, fun v => ?_⟩ <;>
    simp [SevenSegments.copy_with_dp_on, FourteenSegments.copy_with_dp_on,
      AsciiSegment.copy_with_dp_on]

/-- C6: for a positive width and a per-cell result longer than the width,
each of the three entry points keeps exactly the trailing `width` elements of
its per-cell result, in their original order, dropping elements from the
front. -/
theorem right_aligned_truncation {α} [SegmentOps α] (m : CharacterMap α)
    (embed_dots : Bool) (w : Nat) (text : List Char) (cells : List DisplayChar)
    (hw : 0 < w)
    (htext : w < (map_text_loop m embed_dots text).length)
    (hcells : w < cells.length) :
  map_text_to_segments text w m embed_dots
    = (map_text_loop m embed_dots text).drop
        ((map_text_loop m embed_dots text).length - w) ∧
  map_segment_text_to_segments cells w m
    = (cells.map (map_cell m)).drop (cells.length - w) ∧
  map_segment_text_to_segments_with_color cells w m
    = (cells.map (fun ch => (map_cell m ch, ch.color))).drop (cells.length - w) := by
  have h2 : w < (cells.map (map_cell m)).length := by simpa using hcells
  have h3 : w < (cells.map (fun ch => (map_cell m ch, ch.color))).length := by
    simpa using hcells
  refine ⟨?_, ?_, ?_⟩
  · unfold map_text_to_segments
    exact normalize_width_truncates w _ _ hw htext
  · unfold map_segment_text_to_segments
    rw [normalize_width_truncates w _ _ hw h2, List.length_map]
  · unfold map_segment_text_to_segments_with_color
    rw [normalize_width_truncates w _ _ hw h3, List.length_map]

/-- Witness for C6: a five-character string and a four-cell sequence at
width 3 on the seven-segment table. -/
theorem right_aligned_truncation_witness :
  map_text_to_segments ['1', '2', '3', '4', '5'] 3 SEVEN_SEGMENTS true
    = (map_text_loop SEVEN_SEGMENTS true ['1', '2', '3', '4', '5']).drop
        ((map_text_loop SEVEN_SEGMENTS true ['1', '2', '3', '4', '5']).length - 3) ∧
  map_segment_text_to_segments
      [⟨72, false, NAMED_RGB_COLORS_white⟩, ⟨73, true, NAMED_RGB_COLORS_white⟩,
       ⟨65, false, NAMED_RGB_COLORS_white⟩, ⟨66, false, NAMED_RGB_COLORS_white⟩]
      3 SEVEN_SEGMENTS
    = ([⟨72, false, NAMED_RGB_COLORS_white⟩, ⟨73, true, NAMED_RGB_COLORS_white⟩,
        ⟨65, false, NAMED_RGB_COLORS_white⟩, ⟨66, false, NAMED_RGB_COLORS_white⟩].map
         (map_cell SEVEN_SEGMENTS)).drop
        (([⟨72, false, NAMED_RGB_COLORS_white⟩, ⟨73, true, NAMED_RGB_COLORS_white⟩,
           ⟨65, false, NAMED_RGB_COLORS_white⟩,
           ⟨66, false, NAMED_RGB_COLORS_white⟩] : List DisplayChar).length - 3) ∧
  map_segment_text_to_segments_with_color
      [⟨72, false, NAMED_RGB_COLORS_white⟩, ⟨73, true, NAMED_RGB_COLORS_white⟩,
       ⟨65, false, NAMED_RGB_COLORS_white⟩, ⟨66, false, NAMED_RGB_COLORS_white⟩]
      3 SEVEN_SEGMENTS
    = ([⟨72, false, NAMED_RGB_COLORS_white⟩, ⟨73, true, NAMED_RGB_COLORS_white⟩,
        ⟨65, false, NAMED_RGB_COLORS_white⟩, ⟨66, false, NAMED_RGB_COLORS_white⟩].map
         (fun ch => (map_cell SEVEN_SEGMENTS ch, ch.color))).drop
        (([⟨72, false, NAMED_RGB_COLORS_white⟩, ⟨73, true, NAMED_RGB_COLORS_white⟩,
           ⟨65, false, NAMED_RGB_COLORS_white⟩,
           ⟨66, false, NAMED_RGB_COLORS_white⟩] : List DisplayChar).length - 3) :=
  right_aligned_truncation SEVEN_SEGMENTS true 3 ['1', '2', '3', '4', '5']
    [⟨72, false, NAMED_RGB_COLORS_white⟩, ⟨73, true, NAMED_RGB_COLORS_white⟩,
     ⟨65, false, NAMED_RGB_COLORS_white⟩, ⟨66, false, NAMED_RGB_COLORS_white⟩]
    (by decide) (by decide) (by decide)

/-- C7: for a per-cell result shorter than the width, each of the three entry
points prepends `lookup(map, 32)` entries at the front until the length
equals the width (with the fallback returned by that lookup when space itself
is unmapped, and the pair of the space lookup with the white color for the
colored entry point). -/
theorem space_padding {α} [SegmentOps α] (m : CharacterMap α)
    (embed_dots : Bool) (w : Nat) (text : List Char) (cells : List DisplayChar)
    (htext : (map_text_loop m embed_dots text).length < w)
    (hcells : cells.length < w) :
  map_text_to_segments text w m embed_dots
    = List.replicate (w - (map_text_loop m embed_dots text).length)
        (m.lookup 32) ++ map_text_loop m embed_dots text ∧
  map_segment_text_to_segments cells w m
    = List.replicate (w - cells.length) (m.lookup 32)
        ++ cells.map (map_cell m) ∧
  map_segment_text_to_segments_with_color cells w m
    = List.replicate (w - cells.length) (m.lookup 32, NAMED_RGB_COLORS_white)
        ++ cells.map (fun ch => (map_cell m ch, ch.color)) := by
  have h2 : (cells.map (map_cell m)).length < w := by simpa using hcells
  have h3 : (cells.map (fun ch => (map_cell m ch, ch.color))).length < w := by
    simpa using hcells
  refine ⟨?_, ?_, ?_⟩
  · unfold map_text_to_segments
    exact normalize_width_pads w _ _ htext
  · unfold map_segment_text_to_segments
    rw [normalize_width_pads w _ _ h2, List.length_map]
  · unfold map_segment_text_to_segments_with_color
    rw [normalize_width_pads w _ _ h3, List.length_map]

/-- Witness for C7: the one-character string "1" and a single cell at
width 4 on the seven-segment table, yielding three space entries followed by
the value for '1'. -/
theorem space_padding_witness :
  map_text_to_segments ['1'] 4 SEVEN_SEGMENTS true
    = List.replicate (4 - (map_text_loop SEVEN_SEGMENTS true ['1']).length)
        (SEVEN_SEGMENTS.lookup 32) ++ map_text_loop SEVEN_SEGMENTS true ['1'] ∧
  map_segment_text_to_segments [⟨49, false, NAMED_RGB_COLORS_white⟩] 4 SEVEN_SEGMENTS
    = List.replicate (4 - ([⟨49, false, NAMED_RGB_COLORS_white⟩] : List DisplayChar).length)
        (SEVEN_SEGMENTS.lookup 32)
        ++ [⟨49, false, NAMED_RGB_COLORS_white⟩].map (map_cell SEVEN_SEGMENTS) ∧
  map_segment_text_to_segments_with_color [⟨49, false, NAMED_RGB_COLORS_white⟩] 4
      SEVEN_SEGMENTS
    = List.replicate (4 - ([⟨49, false, NAMED_RGB_COLORS_white⟩] : List DisplayChar).length)
        (SEVEN_SEGMENTS.lookup 32, NAMED_RGB_COLORS_white)
        ++ [⟨49, false, NAMED_RGB_COLORS_white⟩].map
             (fun ch => (map_cell SEVEN_SEGMENTS ch, ch.color)) :=
  space_padding SEVEN_SEGMENTS true 4 ['1'] [⟨49, false, NAMED_RGB_COLORS_white⟩]
    (by decide) (by decide)

/-- C8: for every fourteen-segment value, the apc encoder returns exactly two
bytes; byte 0 carries dp, g1, f, e, a, b, c, d at bit positions 7 down to 0
and byte 1 carries l, dp, n, m, k, g2, h, j at bit positions 7 down to 0, so
the dp flag is packed into both bytes. -/
theorem apc_encoding_layout (v : FourteenSegments) :
  ∃ b0 b1, v.get_apc_encoding = [b0, b1] ∧ b0 < 256 ∧ b1 < 256 ∧
    (b0.testBit 7 = v.dp ∧ b0.testBit 6 = v.g1 ∧ b0.testBit 5 = v.f ∧
     b0.testBit 4 = v.e ∧ b0.testBit 3 = v.a ∧ b0.testBit 2 = v.b ∧
     b0.testBit 1 = v.c ∧ b0.testBit 0 = v.d) ∧
    (b1.testBit 7 = v.l ∧ b1.testBit 6 = v.dp ∧ b1.testBit 5 = v.n ∧
     b1.testBit 4 = v.m ∧ b1.testBit 3 = v.k ∧ b1.testBit 2 = v.g2 ∧
     b1.testBit 1 = v.h ∧ b1.testBit 0 = v.j) := by
  refine ⟨_, _, rfl, ?_, ?_, ?_, ?_⟩
  · show _ < 2 ^ 8
    repeat' apply Nat.or_lt_two_pow
    all_goals
      first
        | exact bit_shift_lt _ _ (by omega)
        | exact lt_of_le_of_lt (bit_le_one _) (by norm_num)
  · show _ < 2 ^ 8
    repeat' apply Nat.or_lt_two_pow
    all_goals
      first
        | exact bit_shift_lt _ _ (by omega)
        | exact lt_of_le_of_lt (bit_le_one _) (by norm_num)
  · simp [Nat.testBit_or, bit_shift_testBit, bit_testBit, bit_mod_two]
  · simp [Nat.testBit_or, bit_shift_testBit, bit_testBit, bit_mod_two]

/-- C9: the reflective equality compares every field, the diagnostic label
included: it holds exactly for structurally equal values, and two values
whose dot and segment flags all agree but whose labels differ are not
equal. -/
theorem structural_equality_with_label :
  (∀ s o : SevenSegments, s.seg_eq o = true ↔ s = o) ∧
  (∀ s o : SevenSegments, s.dp = o.dp → s.g = o.g → s.f = o.f → s.e = o.e →
     s.d = o.d → s.c = o.c → s.b = o.b → s.a = o.a → s.char ≠ o.char →
     s.seg_eq o = false) := by
  constructor
  · intro s o
    cases s; cases o
    simp [SevenSegments.seg_eq, SevenSegments.mk.injEq, and_assoc]
  · intro s o h1 h2 h3 h4 h5 h6 h7 h8 hne
    simp [SevenSegments.seg_eq, hne]

/-- Witness for C9: the seven-segment entries for 'U' (code 85) and 'V'
(code 86) light the same segments but carry different labels, and the
reflective equality distinguishes them. -/
theorem structural_equality_with_label_witness :
  (SEVEN_SEGMENTS.lookup 85).seg_eq (SEVEN_SEGMENTS.lookup 86) = false :=
  structural_equality_with_label.2 _ _ (by decide) (by decide) (by decide)
    (by decide) (by decide) (by decide) (by decide) (by decide) (by decide)

/-- C10: the ascii table maps every code from 0 to 127 to a value carrying
that code as its raw ascii value, dot off and the corresponding character as
label; its fallback is the space glyph (ascii value 32, dot off); hence every
lookup, mapped or not, returns a value with dot off and ascii value in
0..127. -/
theorem ascii_identity_table (code : Nat) :
  ASCII_SEGMENTS.fallback.dp = false ∧
  ASCII_SEGMENTS.fallback.ascii_value = 32 ∧
  ASCII_SEGMENTS.fallback.char = ' ' ∧
  (ASCII_SEGMENTS.lookup code).dp = false ∧
  (ASCII_SEGMENTS.lookup code).ascii_value ≤ 127 ∧
  (code < 128 → ASCII_SEGMENTS.lookup code = ⟨false, code, Char.ofNat code⟩) ∧
  (128 ≤ code → ASCII_SEGMENTS.lookup code = ASCII_SEGMENTS.fallback) := by
  by_cases h : code < 128
  · have hl := ascii_lookup_lt code h
    refine ⟨rfl, rfl, rfl, ?_, ?_, fun _ => hl, fun hge => absurd hge (by omega)⟩
    · rw [hl]
    · rw [hl]
      show code ≤ 127
      omega
  · have hg := ascii_lookup_ge code (by omega)
    refine ⟨rfl, rfl, rfl, ?_, ?_, fun hlt => absurd hlt h, fun _ => hg⟩
    · rw [hg]
      decide
    · rw [hg]
      decide

/-- Witness for C10: a mapped code and an unmapped code. -/
theorem ascii_identity_table_witness :
  ASCII_SEGMENTS.lookup 65 = ⟨false, 65, Char.ofNat 65⟩ ∧
  ASCII_SEGMENTS.lookup 300 = ASCII_SEGMENTS.fallback :=
  ⟨(ascii_identity_table 65).2.2.2.2.2.1 (by decide),
   (ascii_identity_table 300).2.2.2.2.2.2 (by decide)⟩

end SegmentMappings
